import Mathlib

/-!
Shallow embedding of the `heart-rate` repository (src/core.rs) and proofs
about its decoding, streaming, retry, and discovery logic.

Conventions:
* Rust `u8` bytes are embedded as `Nat`; a cast `as u8` is an explicit `% 256`.
* A Rust slice index `data[i]` panics when out of bounds; a function that can
  panic is embedded with result type `Option _`, where `none` models the panic.
* The asynchronous transport collaborator (btleplug) is external: its results
  (discovered peripherals, notification events, adapter handles, cycle
  outcomes) are parameters of the embedded functions, and its operations are
  assumed not to fail unless the claim under study is about their failure.
-/

/-- The heart-rate characteristic UUID constant `UUID_STR` (core.rs:12). -/
def UUID_STR : String := "00002a37-0000-1000-8000-00805f9b34fb"

/-- The compiled-in allow-list `SUPPORT_DEVICES` (core.rs:13). -/
def SUPPORT_DEVICES : List String := ["Xiaomi Smart Band 9 082F"]

/-- The error enum `Error` (core.rs:16-28).  The `Bluetooth` variant wraps a
transport-layer error, carried here as its message string. -/
inductive Error where
  | BluetoothAdaptersNotFound
  | DeviceNotFound
  | CharacteristicNotFound
  | HeartRateMonitorNotFound
  | Bluetooth (msg : String)
deriving DecidableEq

/-- Embedding of `parse_heart_rate` (core.rs:108-118):

```rust
fn parse_heart_rate(data: &[u8]) -> u8 {
    if data.len() >= 2 {
        if data[0] & 0x01 == 0 { data[1] }
        else { u16::from_le_bytes([data[1], data[2]]) as u8 }
    } else { 0 }
}
```

Each slice access `data[i]` is embedded as `data[i]?`, with `none` modelling
the out-of-bounds panic.  `u16::from_le_bytes([b1, b2])` is `b2 * 256 + b1`
and the `as u8` cast is `% 256`. -/
def parse_heart_rate (data : List Nat) : Option Nat :=
  if 2 ≤ data.length then
    (data[0]?).bind fun b0 =>
      if b0 &&& 1 = 0 then
        data[1]?
      else
        (data[1]?).bind fun b1 =>
          (data[2]?).map fun b2 => (b2 * 256 + b1) % 256
  else
    some 0

/-- A notification event from the transport layer (btleplug
`ValueNotification`): a characteristic identifier and a byte payload, as
consumed in core.rs:94-101. -/
structure HrNotification where
  uuid : String
  value : List Nat
deriving DecidableEq

/-- Observable events of one `connect_and_monitor` cycle after the
subscription succeeded: a value sent on the output channel, or the final
`device.disconnect()` call (core.rs:94-104). -/
inductive CycleEvent where
  | sent (v : Nat)
  | disconnect
deriving DecidableEq

/-- Embedding of the notification while-loop of `connect_and_monitor`
(core.rs:94-104):

```rust
while let Some(data) = notification_stream.next().await {
    if data.uuid == heart_rate_uuid {
        let value = parse_heart_rate(&data.value);
        if sender.send(value).await.is_err() { break; }
    }
}
device.disconnect().await?;
Ok(())
```

The notification stream is the list `notifs`; the receiver side of the
channel is modelled by `cap`: `cap = none` means the consumer never closes it
(every send succeeds), `cap = some c` means the consumer closes it after
accepting `c` values, so the `(c+1)`-th send fails.  The result is the list
of cycle events when the cycle returns `Ok` — `none` models the task dying in
a `parse_heart_rate` panic.  `device.disconnect()` is assumed to succeed. -/
def connect_and_monitor_stream (cap : Option Nat) :
    List HrNotification → Option (List CycleEvent)
  | [] => some [CycleEvent.disconnect]
  | n :: rest =>
    if n.uuid == UUID_STR then
      (parse_heart_rate n.value).bind fun v =>
        match cap with
        | none =>
          (connect_and_monitor_stream none rest).map (CycleEvent.sent v :: ·)
        | some 0 => some [CycleEvent.disconnect]
        | some (c + 1) =>
          (connect_and_monitor_stream (some c) rest).map (CycleEvent.sent v :: ·)
    else
      connect_and_monitor_stream cap rest

/-- Decoding every notification of a list in order, `none` if any payload
makes `parse_heart_rate` panic. -/
def decode_all : List HrNotification → Option (List Nat)
  | [] => some []
  | n :: rest =>
    (parse_heart_rate n.value).bind fun v => (decode_all rest).map (v :: ·)

/-- Observable events of the retry loop spawned by `start_monitoring`
(core.rs:52-60): entering a cycle (which starts at the scan step,
core.rs:73), reporting an error via `eprintln!`, and the backoff sleep with
its duration in seconds. -/
inductive LoopEvent where
  | cycleStart
  | report (e : Error)
  | backoff (secs : Nat)
deriving DecidableEq

/-- Embedding of the retry loop of `start_monitoring` (core.rs:52-60):

```rust
loop {
    match Self::connect_and_monitor(...).await {
        Ok(_) => break,
        Err(e) => { eprintln!("Monitoring error: {e}"); time::sleep(Duration::from_secs(5)).await; }
    }
}
```

`outcomes` lists the successive results of `connect_and_monitor`.  The first
component is the event trace; the second is `true` when the loop has exited
(hit `break`) and `false` when it has consumed every listed outcome and is
still running, waiting on the next cycle. -/
def start_monitoring_loop : List (Except Error Unit) → List LoopEvent × Bool
  | [] => ([], false)
  | Except.ok _ :: _ => ([LoopEvent.cycleStart], true)
  | Except.error e :: rest =>
    let p := start_monitoring_loop rest
    (LoopEvent.cycleStart :: LoopEvent.report e :: LoopEvent.backoff 5 :: p.1,
     p.2)

/-- The event trace of a run of error cycles: each one starts (at the scan
step), reports its error, and backs off 5 seconds. -/
def error_events : List Error → List LoopEvent
  | [] => []
  | e :: rest =>
    LoopEvent.cycleStart :: LoopEvent.report e :: LoopEvent.backoff 5 ::
      error_events rest

/-- An adapter handle from the transport layer (btleplug `Adapter`); the
core never inspects it, so it is carried by an id. -/
structure Adapter where
  id : Nat
deriving DecidableEq

/-- Advertisement properties of a discovered peripheral (btleplug
`PeripheralProperties`) as used in core.rs:133-137: the optional advertised
local name and the address (already as its string form). -/
structure PeripheralProperties where
  local_name : Option String
  address : String
deriving DecidableEq

/-- A discovered peripheral: `peripheral.properties()` yields an optional
`PeripheralProperties` (its transport errors are assumed absent). -/
structure Peripheral where
  properties : Option PeripheralProperties
deriving DecidableEq

/-- The advertised local name of a peripheral, when it has one. -/
def Peripheral.adv_name (p : Peripheral) : Option String :=
  p.properties.bind PeripheralProperties.local_name

/-- Embedding of the enumeration loop of `get_device_address`
(core.rs:132-145) over the peripherals discovered by the scan:

```rust
for peripheral in peripherals {
    let properties = peripheral.properties().await?;
    if let Some(props) = properties {
        if let Some(name) = props.local_name {
            if name == device_name {
                let address = props.address.to_string();
                adapter.stop_scan().await?;
                return Ok(address);
            }
        }
    }
}
Err(Error::DeviceNotFound)
```

The `Bool` component records whether `adapter.stop_scan()` was called; it is
called exactly on the success path (core.rs:138) and assumed to succeed. -/
def find_device_address (device_name : String) :
    List Peripheral → Except Error String × Bool
  | [] => (Except.error Error.DeviceNotFound, false)
  | p :: rest =>
    match p.properties with
    | some props =>
      match props.local_name with
      | some name =>
        if name == device_name then (Except.ok props.address, true)
        else find_device_address device_name rest
      | none => find_device_address device_name rest
    | none => find_device_address device_name rest

/-- Embedding of `get_device_address` (core.rs:120-146): takes the first
adapter of the manager (`Error::BluetoothAdaptersNotFound` when there is
none), starts a scan and waits 5 seconds — the scan outcome being the
`peripherals` parameter — then runs the enumeration loop. -/
def get_device_address (adapters : List Adapter) (device_name : String)
    (peripherals : List Peripheral) : Except Error String × Bool :=
  match adapters.head? with
  | none => (Except.error Error.BluetoothAdaptersNotFound, false)
  | some _ => find_device_address device_name peripherals

/-- The struct `HeartRateMonitor` (core.rs:31-34), as built by
`HeartRateMonitor::new` (core.rs:37-42). -/
structure HeartRateMonitor where
  adapter : Adapter
  device_address : String
deriving DecidableEq

/-- Embedding of the candidate loop of `detect_monitor` (core.rs:149-163)
over a list of candidate device names: on a successful locate, re-acquire
the first adapter and build the monitor; on a locate error, log it and try
the next name; `Error::HeartRateMonitorNotFound` when the names run out. -/
def detect_monitor_from (adapters : List Adapter) (ps : List Peripheral) :
    List String → Except Error HeartRateMonitor
  | [] => Except.error Error.HeartRateMonitorNotFound
  | name :: rest =>
    match (get_device_address adapters name ps).1 with
    | Except.ok addr =>
      match adapters.head? with
      | some a => Except.ok ⟨a, addr⟩
      | none => Except.error Error.BluetoothAdaptersNotFound
    | Except.error _ => detect_monitor_from adapters ps rest

/-- Embedding of `detect_monitor` (core.rs:148-165): the candidate loop run
on the compiled-in `SUPPORT_DEVICES` allow-list. -/
def detect_monitor (adapters : List Adapter) (ps : List Peripheral) :
    Except Error HeartRateMonitor :=
  detect_monitor_from adapters ps SUPPORT_DEVICES

/-- Whether a locate result is a success. -/
def locate_ok (r : Except Error String) : Bool :=
  match r with
  | Except.ok _ => true
  | Except.error _ => false

/-- The address in a successful locate result, `""` on an error. -/
def locate_addr (r : Except Error String) : String :=
  match r with
  | Except.ok a => a
  | Except.error _ => ""

theorem parse_heart_rate_nil : parse_heart_rate [] = some 0 := rfl

theorem parse_heart_rate_single (a : Nat) : parse_heart_rate [a] = some 0 := rfl

theorem parse_heart_rate_cons2 (a b : Nat) :
    parse_heart_rate [a, b] =
      if a &&& 1 = 0 then some b else none := by
  simp [parse_heart_rate]

theorem parse_heart_rate_cons3 (a b c : Nat) (rest : List Nat) :
    parse_heart_rate (a :: b :: c :: rest) =
      if a &&& 1 = 0 then some b else some ((c * 256 + b) % 256) := by
  have hlen : 2 ≤ (a :: b :: c :: rest).length := by
    simp [List.length_cons]
  simp [parse_heart_rate, hlen]

/-- C1 (counterexample): the decoder is NOT total.  On the 2-byte payload
`[0x01, 0x2C]` with flags bit 0 set, `parse_heart_rate` reaches the 16-bit
branch and indexes `data[2]` on a 2-element slice, which panics (modelled
`none`); it does not return a heart-rate value. -/
theorem parse_heart_rate_two_byte_flagged_panics :
    parse_heart_rate [1, 44] = none := by decide

/-- C1 (amended): the decoder returns a value without failing on every
payload EXCEPT a payload of length exactly 2 whose flags byte has bit 0 set
(where `data[2]` is out of bounds). -/
theorem parse_heart_rate_total_amended (data : List Nat)
    (h : data.length = 2 → (data[0]?).getD 0 &&& 1 = 0) :
    (parse_heart_rate data).isSome = true := by
  match data with
  | [] => decide
  | [a] => simp [parse_heart_rate]
  | [a, b] =>
    have ha := h rfl
    simp only [List.getElem?_cons_zero, Option.getD_some] at ha
    simp [parse_heart_rate_cons2, ha]
  | a :: b :: c :: rest =>
    rw [parse_heart_rate_cons3]
    split <;> simp

/-- C1 (amended, witness): a concrete 2-byte payload with flags bit 0 clear
satisfies the hypothesis and decodes without failing. -/
theorem parse_heart_rate_total_amended_witness :
    (([0, 60] : List Nat).length = 2 → (([0, 60] : List Nat)[0]?).getD 0 &&& 1 = 0)
    ∧ (parse_heart_rate [0, 60]).isSome = true :=
  ⟨by decide, parse_heart_rate_total_amended [0, 60] (by decide)⟩

/-- C2: for a payload of length at least 3 whose flags byte has bit 0 set,
decoding returns the low 8 bits of the little-endian 16-bit value formed from
bytes 1 and 2, i.e. `(hi <<< 8 ||| lo) % 256 = (hi * 256 + lo) % 256`. -/
theorem parse_heart_rate_16bit (data : List Nat) (f lo hi : Nat)
    (h0 : data[0]? = some f) (hf : f % 2 = 1)
    (h1 : data[1]? = some lo) (h2 : data[2]? = some hi) :
    parse_heart_rate data = some ((hi * 256 + lo) % 256) := by
  match data with
  | [] => simp at h0
  | [a] => simp at h1
  | [a, b] => simp at h2
  | a :: b :: c :: rest =>
    simp only [List.getElem?_cons_zero, Option.some.injEq] at h0
    simp only [List.getElem?_cons_succ, List.getElem?_cons_zero,
      Option.some.injEq] at h1 h2
    subst h0 h1 h2
    rw [parse_heart_rate_cons3]
    rw [Nat.and_one_is_mod, hf]
    simp

/-- C2 (witness): the spec's example payload `[0x01, 0x2C, 0x01]` (300 in
little-endian 16-bit) decodes to 44, demonstrating the truncation. -/
theorem parse_heart_rate_16bit_witness :
    (([1, 44, 1] : List Nat)[0]? = some 1) ∧ 1 % 2 = 1
    ∧ (([1, 44, 1] : List Nat)[1]? = some 44)
    ∧ (([1, 44, 1] : List Nat)[2]? = some 1)
    ∧ parse_heart_rate [1, 44, 1] = some 44 :=
  ⟨by decide, by decide, by decide, by decide, by
    simpa using parse_heart_rate_16bit [1, 44, 1] 1 44 1 rfl rfl rfl rfl⟩

/-- C3: for a payload of length at least 2 whose flags byte has bit 0 clear,
decoding returns byte 1 of the payload. -/
theorem parse_heart_rate_8bit (data : List Nat) (f v : Nat)
    (h0 : data[0]? = some f) (hf : f % 2 = 0) (h1 : data[1]? = some v) :
    parse_heart_rate data = some v := by
  match data with
  | [] => simp at h0
  | [a] => simp at h1
  | a :: b :: rest =>
    simp only [List.getElem?_cons_zero, Option.some.injEq] at h0
    simp only [List.getElem?_cons_succ, List.getElem?_cons_zero,
      Option.some.injEq] at h1
    rw [h0, h1]
    have hlen : 2 ≤ (f :: v :: rest).length := by simp [List.length_cons]
    simp [parse_heart_rate, hlen, Nat.and_one_is_mod, hf]

/-- C3 (witness): the payload `[0x00, 77]` decodes to 77. -/
theorem parse_heart_rate_8bit_witness :
    (([0, 77] : List Nat)[0]? = some 0) ∧ 0 % 2 = 0
    ∧ (([0, 77] : List Nat)[1]? = some 77)
    ∧ parse_heart_rate [0, 77] = some 77 :=
  ⟨by decide, by decide, by decide,
    parse_heart_rate_8bit [0, 77] 0 77 rfl rfl rfl⟩

/-- C4: every payload with fewer than 2 bytes decodes to the fallback value 0
(not an error). -/
theorem parse_heart_rate_short (data : List Nat) (h : data.length < 2) :
    parse_heart_rate data = some 0 := by
  have : ¬ 2 ≤ data.length := Nat.not_le.mpr h
  simp [parse_heart_rate, this]

/-- C4 (witness): the empty payload and a 1-byte payload both decode to 0. -/
theorem parse_heart_rate_short_witness :
    ([] : List Nat).length < 2 ∧ parse_heart_rate [] = some 0
    ∧ ([9] : List Nat).length < 2 ∧ parse_heart_rate [9] = some 0 :=
  ⟨by decide, parse_heart_rate_short [] (by decide),
   by decide, parse_heart_rate_short [9] (by decide)⟩

/-- C10: on every payload of length at least 3 made of bytes (values < 256),
the decoded value is byte 1 of the payload, whatever the flags byte and
byte 2 are: both branches of the decoder compute the same function there. -/
theorem parse_heart_rate_high_byte_irrelevant (data : List Nat)
    (h3 : 3 ≤ data.length) (hb : ∀ b ∈ data, b < 256) :
    parse_heart_rate data = data[1]? := by
  match data with
  | [] => simp at h3
  | [a] => simp at h3
  | [a, b] => simp at h3
  | a :: b :: c :: rest =>
    rw [parse_heart_rate_cons3]
    have hblt : b < 256 := hb b (by simp)
    have hmod : (c * 256 + b) % 256 = b := by omega
    split <;> simp [hmod]

/-- C5: during one streaming cycle with the consumer never closing the
channel, the cycle sends exactly one decoded value per notification whose
characteristic identifier equals the heart-rate UUID, in the order received;
non-matching notifications produce nothing and are never decoded. -/
theorem connect_and_monitor_order (notifs : List HrNotification) :
    connect_and_monitor_stream none notifs =
      (decode_all (notifs.filter fun n => n.uuid == UUID_STR)).map
        (fun vs => vs.map CycleEvent.sent ++ [CycleEvent.disconnect]) := by
  induction notifs with
  | nil => simp [connect_and_monitor_stream, decode_all]
  | cons n rest ih =>
    by_cases h : (n.uuid == UUID_STR) = true
    · cases hp : parse_heart_rate n.value with
      | none =>
        simp [connect_and_monitor_stream, List.filter_cons, h, decode_all, hp]
      | some v =>
        cases hd : decode_all (rest.filter fun m => m.uuid == UUID_STR) with
        | none =>
          simp [connect_and_monitor_stream, List.filter_cons, h, decode_all,
            hp, ih, hd]
        | some vs =>
          simp [connect_and_monitor_stream, List.filter_cons, h, decode_all,
            hp, ih, hd]
    · simp [connect_and_monitor_stream, List.filter_cons, h, ih]

/-- C6: the retry loop of `start_monitoring` reports and backs off 5 seconds
after every error cycle, restarts the cycle (at the scan step) afterwards,
exits permanently at the first error-free cycle (any later outcomes are
unused), and after any number of error cycles it is still running. -/
theorem start_monitoring_retry (errs : List Error)
    (rest : List (Except Error Unit)) :
    start_monitoring_loop (errs.map Except.error ++ Except.ok () :: rest) =
      (error_events errs ++ [LoopEvent.cycleStart], true)
    ∧ start_monitoring_loop (errs.map Except.error) = (error_events errs, false) := by
  induction errs with
  | nil => simp [start_monitoring_loop, error_events]
  | cons e es ih =>
    refine ⟨?_, ?_⟩ <;>
      simp [start_monitoring_loop, error_events, ih.1, ih.2]

lemma connect_and_monitor_truncates (notifs : List HrNotification) :
    ∀ c vs, decode_all (notifs.filter fun n => n.uuid == UUID_STR) = some vs →
      c < vs.length →
      connect_and_monitor_stream (some c) notifs =
        some ((vs.take c).map CycleEvent.sent ++ [CycleEvent.disconnect]) := by
  induction notifs with
  | nil =>
    intro c vs h1 h2
    simp only [List.filter_nil, decode_all, Option.some.injEq] at h1
    subst h1
    exact absurd h2 (by simp)
  | cons n rest ih =>
    intro c vs h1 h2
    by_cases h : (n.uuid == UUID_STR) = true
    · rw [List.filter_cons, if_pos h, decode_all] at h1
      cases hp : parse_heart_rate n.value with
      | none => rw [hp] at h1; simp at h1
      | some v =>
        rw [hp] at h1
        cases hd : decode_all (rest.filter fun n => n.uuid == UUID_STR) with
        | none => rw [hd] at h1; simp at h1
        | some vs' =>
          rw [hd] at h1
          simp at h1
          subst h1
          cases c with
          | zero => rw [connect_and_monitor_stream, if_pos h, hp]; rfl
          | succ k =>
            have hk : k < vs'.length := by
              simpa [Nat.succ_lt_succ_iff] using h2
            rw [connect_and_monitor_stream, if_pos h, hp]
            simp [ih k vs' hd hk]
    · rw [List.filter_cons, if_neg h] at h1
      rw [connect_and_monitor_stream, if_neg h]
      exact ih c vs h1 h2

/-- C7: if the consumer closes the receiving side after accepting `c` values
while matching decodable notifications are still pending (`c < vs.length`),
the cycle stops consuming the stream after the failed send, performs exactly
one disconnect, and an `Ok` cycle makes the retry loop exit permanently with
no further cycle start. -/
theorem connect_and_monitor_clean_exit (c : Nat) (notifs : List HrNotification)
    (vs : List Nat)
    (h1 : decode_all (notifs.filter fun n => n.uuid == UUID_STR) = some vs)
    (h2 : c < vs.length) :
    connect_and_monitor_stream (some c) notifs =
      some ((vs.take c).map CycleEvent.sent ++ [CycleEvent.disconnect])
    ∧ ((vs.take c).map CycleEvent.sent ++ [CycleEvent.disconnect]).count
        CycleEvent.disconnect = 1
    ∧ start_monitoring_loop [Except.ok ()] = ([LoopEvent.cycleStart], true) := by
  refine ⟨connect_and_monitor_truncates notifs c vs h1 h2, ?_, rfl⟩
  have hnot : CycleEvent.disconnect ∉ (vs.take c).map CycleEvent.sent := by
    intro hmem
    rcases List.mem_map.mp hmem with ⟨v, _, hv⟩
    exact CycleEvent.noConfusion hv
  rw [List.count_append, List.count_eq_zero.mpr hnot]
  rfl

/-- C7 (witness): with two matching decodable notifications and the consumer
closing after one accepted value, the cycle sends one value then
disconnects once. -/
theorem connect_and_monitor_clean_exit_witness :
    decode_all (([⟨UUID_STR, [0, 60]⟩, ⟨UUID_STR, [0, 70]⟩] :
        List HrNotification).filter fun n => n.uuid == UUID_STR) = some [60, 70]
    ∧ 1 < ([60, 70] : List Nat).length
    ∧ connect_and_monitor_stream (some 1)
        [⟨UUID_STR, [0, 60]⟩, ⟨UUID_STR, [0, 70]⟩] =
        some [CycleEvent.sent 60, CycleEvent.disconnect] :=
  ⟨by decide, by decide, by
    simpa using (connect_and_monitor_clean_exit 1
      [⟨UUID_STR, [0, 60]⟩, ⟨UUID_STR, [0, 70]⟩] [60, 70]
      (by decide) (by decide)).1⟩

/-- C10 (witness): the 8-bit payload `[0, 44, 7]` and the 16-bit payload
`[1, 44, 1]` both decode to byte 1, namely 44. -/
theorem parse_heart_rate_high_byte_irrelevant_witness :
    (3 ≤ ([1, 44, 1] : List Nat).length) ∧ (∀ b ∈ ([1, 44, 1] : List Nat), b < 256)
    ∧ parse_heart_rate [1, 44, 1] = ([1, 44, 1] : List Nat)[1]? :=
  ⟨by decide, by decide,
    parse_heart_rate_high_byte_irrelevant [1, 44, 1] (by decide) (by decide)⟩

lemma find_device_address_eq_find? (name : String) (ps : List Peripheral) :
    find_device_address name ps =
      match ps.find? (fun p => p.adv_name == some name) with
      | some p =>
        (Except.ok ((p.properties.map PeripheralProperties.address).getD ""),
         true)
      | none => (Except.error Error.DeviceNotFound, false) := by
  induction ps with
  | nil => rfl
  | cons p rest ih =>
    cases hp : p.properties with
    | none =>
      have hadv : (p.adv_name == some name) = false := by
        simp [Peripheral.adv_name, hp]
      simp [List.find?_cons, hadv, find_device_address, hp, ih]
    | some props =>
      cases hn : props.local_name with
      | none =>
        have hadv : (p.adv_name == some name) = false := by
          simp [Peripheral.adv_name, hp, hn]
        simp [List.find?_cons, hadv, find_device_address, hp, hn, ih]
      | some nm =>
        by_cases he : nm = name
        · have hadv : (p.adv_name == some name) = true := by
            simp [Peripheral.adv_name, hp, hn, he]
          simp [List.find?_cons, hadv, find_device_address, hp, hn, he]
        · have hadv : (p.adv_name == some name) = false := by
            simp [Peripheral.adv_name, hp, hn, he]
          simp [List.find?_cons, hadv, find_device_address, hp, hn, he, ih]

/-- C8: with an adapter present, the locator returns the address of the
first discovered peripheral whose advertised local name equals the input
exactly (string equality: case-sensitive, no fuzzy matching), stopping the
scan before returning; when no peripheral matches after the full
enumeration, it signals `Error::DeviceNotFound` (without stopping the
scan). -/
theorem get_device_address_spec (adapters : List Adapter) (name : String)
    (ps : List Peripheral) (h : adapters ≠ []) :
    get_device_address adapters name ps =
      match ps.find? (fun p => p.adv_name == some name) with
      | some p =>
        (Except.ok ((p.properties.map PeripheralProperties.address).getD ""),
         true)
      | none => (Except.error Error.DeviceNotFound, false) := by
  cases adapters with
  | nil => exact absurd rfl h
  | cons a as => exact find_device_address_eq_find? name ps

/-- C8 (witness): among peripherals advertised as `A`, `B`, `Target`,
locating `Target` returns its address with the scan stopped, and locating
`Absent` signals `DeviceNotFound`. -/
theorem get_device_address_spec_witness :
    ([Adapter.mk 0] : List Adapter) ≠ []
    ∧ get_device_address [Adapter.mk 0] "Target"
        [⟨some ⟨some "A", "addrA"⟩⟩, ⟨some ⟨some "B", "addrB"⟩⟩,
         ⟨some ⟨some "Target", "addrT"⟩⟩] = (Except.ok "addrT", true)
    ∧ get_device_address [Adapter.mk 0] "Absent"
        [⟨some ⟨some "A", "addrA"⟩⟩, ⟨some ⟨some "B", "addrB"⟩⟩,
         ⟨some ⟨some "Target", "addrT"⟩⟩] =
        (Except.error Error.DeviceNotFound, false) :=
  ⟨by decide,
   by simpa using (get_device_address_spec [Adapter.mk 0] "Target"
     [⟨some ⟨some "A", "addrA"⟩⟩, ⟨some ⟨some "B", "addrB"⟩⟩,
      ⟨some ⟨some "Target", "addrT"⟩⟩] (by decide)),
   by simpa using (get_device_address_spec [Adapter.mk 0] "Absent"
     [⟨some ⟨some "A", "addrA"⟩⟩, ⟨some ⟨some "B", "addrB"⟩⟩,
      ⟨some ⟨some "Target", "addrT"⟩⟩] (by decide))⟩

lemma detect_monitor_from_spec (adapters : List Adapter) (ps : List Peripheral)
    (names : List String) :
    (detect_monitor_from adapters ps names =
      match names.find? (fun n => locate_ok (get_device_address adapters n ps).1) with
      | some n =>
        match adapters.head? with
        | some a =>
          Except.ok ⟨a, locate_addr (get_device_address adapters n ps).1⟩
        | none => Except.error Error.BluetoothAdaptersNotFound
      | none => Except.error Error.HeartRateMonitorNotFound)
    ∧ (detect_monitor_from adapters ps names =
        Except.error Error.HeartRateMonitorNotFound ↔
      ∀ n ∈ names, locate_ok (get_device_address adapters n ps).1 = false) := by
  induction names with
  | nil => exact ⟨rfl, by simp [detect_monitor_from]⟩
  | cons n rest ih =>
    cases hg : (get_device_address adapters n ps).1 with
    | ok addr =>
      have hok : locate_ok (get_device_address adapters n ps).1 = true := by
        simp [locate_ok, hg]
      constructor
      · cases ha : adapters.head? with
        | some a =>
          simp [detect_monitor_from, List.find?_cons, locate_ok, hg, ha,
            locate_addr]
        | none =>
          simp [detect_monitor_from, List.find?_cons, locate_ok, hg, ha]
      · cases ha : adapters.head? with
        | some a => simp [detect_monitor_from, locate_ok, hg, ha, hok]
        | none => simp [detect_monitor_from, locate_ok, hg, ha, hok]
    | error e =>
      have hok : locate_ok (get_device_address adapters n ps).1 = false := by
        simp [locate_ok, hg]
      refine ⟨?_, ?_⟩
      · simpa [detect_monitor_from, List.find?_cons, hg, hok] using ih.1
      · rw [show detect_monitor_from adapters ps (n :: rest) =
          detect_monitor_from adapters ps rest by simp [detect_monitor_from, hg]]
        rw [ih.2]
        simp [hok]

/-- C9: the monitor factory iterates the fixed ordered allow-list
`SUPPORT_DEVICES`; it returns a monitor bound to (the first adapter and) the
address located for the first name whose locate succeeds, ignoring all the
remaining names, and it signals `Error::HeartRateMonitorNotFound` if and
only if every candidate name fails to locate. -/
theorem detect_monitor_spec (adapters : List Adapter) (ps : List Peripheral)
    (names : List String) :
    (detect_monitor_from adapters ps names =
      match names.find? (fun n => locate_ok (get_device_address adapters n ps).1) with
      | some n =>
        match adapters.head? with
        | some a =>
          Except.ok ⟨a, locate_addr (get_device_address adapters n ps).1⟩
        | none => Except.error Error.BluetoothAdaptersNotFound
      | none => Except.error Error.HeartRateMonitorNotFound)
    ∧ (detect_monitor_from adapters ps names =
        Except.error Error.HeartRateMonitorNotFound ↔
      ∀ n ∈ names, locate_ok (get_device_address adapters n ps).1 = false)
    ∧ detect_monitor adapters ps = detect_monitor_from adapters ps SUPPORT_DEVICES :=
  ⟨(detect_monitor_from_spec adapters ps names).1,
   (detect_monitor_from_spec adapters ps names).2, rfl⟩
